import Mathlib

/-!
Verification development for the ultrasonic multipath flow meter core
(`src/c-language/flowmeter.c`).

The C `double` values are modelled as real numbers; nullable pointers are
modelled as `Option`; the C arrays handed to the core (`paths`,
`measurements`) are modelled as total index functions `ℕ → _`, matching a C
pointer that can be indexed at any position the loop reaches.  The `int`
status code of `calculate_flow_rate` is kept as an `Int`, and the filled-in
output structure is returned alongside it.  Heap behaviour (the two `malloc`
calls and the matching `free`s) is modelled by explicit allocation counters
and by a list of free events, so leak and lifecycle properties are statable.
-/

namespace Flowmeter

open scoped Classical

/-- One acoustic path (struct `AcousticPath` in `flowmeter.h`). -/
structure AcousticPath where
  position : ℝ
  angle : ℝ
  length : ℝ
  weight : ℝ

/-- One transit-time pair (struct `PathMeasurement`). -/
structure PathMeasurement where
  t_upstream : ℝ
  t_downstream : ℝ

/-- Flow meter configuration (struct `FlowMeterConfig`): the `paths` pointer
may be NULL, hence `Option`. -/
structure FlowMeterConfig where
  pipe_diameter : ℝ
  num_paths : ℕ
  paths : Option (ℕ → AcousticPath)

/-- Flow calculation result (struct `FlowResult`): `path_velocities` is a
heap array pointer in C, hence `Option (List ℝ)`. -/
structure FlowResult where
  path_velocities : Option (List ℝ)
  volumetric_flow : ℝ

/-- `calculate_path_velocity` from `flowmeter.c`: transit-time differential
velocity for one path, with the three degenerate guards of the source in
source order (absent reference, non-positive transit time, zero sine). -/
noncomputable def calculate_path_velocity
    (path : Option AcousticPath) (measurement : Option PathMeasurement) : ℝ :=
  match path, measurement with
  | some path, some measurement =>
    let t_up := measurement.t_upstream
    let t_down := measurement.t_downstream
    if t_up ≤ 0 ∨ t_down ≤ 0 then 0
    else
      let delta_t := t_up - t_down
      let sin_theta := Real.sin path.angle
      if sin_theta = 0 then 0
      else (path.length / (2 * sin_theta)) * (delta_t / (t_up * t_down))
  | _, _ => 0

/-- The weighted accumulation loop of `calculate_flow_rate`
(`weighted_velocity_sum += config->paths[i].weight * result->path_velocities[i]`),
as a left fold in index order. -/
noncomputable def weighted_velocity_sum (w v : ℕ → ℝ) (n : ℕ) : ℝ :=
  (List.range n).foldl (fun acc i => acc + w i * v i) 0

/-- The integration tail of `calculate_flow_rate`: cross-sectional area
`M_PI * radius * radius` with `radius = pipe_diameter / 2.0`, times the
weighted velocity sum. -/
noncomputable def flow_from_velocities (pipe_diameter : ℝ) (w v : ℕ → ℝ) (n : ℕ) : ℝ :=
  (Real.pi * (pipe_diameter / 2) * (pipe_diameter / 2)) * weighted_velocity_sum w v n

/-- `calculate_flow_rate` from `flowmeter.c`.  Arguments mirror the C
parameters: `config` and `measurements` are nullable, and `result_present`
records whether the output reference `result` is non-NULL.  The return value
is the C status code (`0` success, `-1` error), the contents written into
`*result` (`none` when nothing was written), and the number of velocity
arrays the call allocated with `malloc` (the idealised heap never makes
`malloc` itself fail). -/
noncomputable def calculate_flow_rate
    (config : Option FlowMeterConfig) (measurements : Option (ℕ → PathMeasurement))
    (result_present : Bool) : Int × Option FlowResult × ℕ :=
  match config, measurements, result_present with
  | some config, some measurements, true =>
    if config.num_paths = 0 then (-1, none, 0)
    else
      match config.paths with
      | none => (-1, none, 0)
      | some paths =>
        let velocities :=
          (List.range config.num_paths).map
            (fun i => calculate_path_velocity (some (paths i)) (some (measurements i)))
        let flow :=
          flow_from_velocities config.pipe_diameter
            (fun i => (paths i).weight)
            (fun i => calculate_path_velocity (some (paths i)) (some (measurements i)))
            config.num_paths
        (0, some ⟨some velocities, flow⟩, 1)
  | _, _, _ => (-1, none, 0)

/-- Heap bookkeeping for `flowmeter_process`: how many result aggregates and
velocity arrays were allocated and how many were freed before returning. -/
structure AllocTrace where
  aggregates_allocated : ℕ
  aggregates_freed : ℕ
  arrays_allocated : ℕ
  arrays_freed : ℕ

/-- `flowmeter_process` from `flowmeter.c`, instrumented with the allocation
trace: NULL checks, `malloc` of the aggregate, delegation to
`calculate_flow_rate`, and `free(result)` on the integration error path. -/
noncomputable def flowmeter_process_traced
    (config : Option FlowMeterConfig) (measurements : Option (ℕ → PathMeasurement)) :
    Option FlowResult × AllocTrace :=
  match config, measurements with
  | some config, some measurements =>
    let r := calculate_flow_rate (some config) (some measurements) true
    if r.1 ≠ 0 then
      (none, ⟨1, 1, r.2.2, 0⟩)
    else
      (r.2.1, ⟨1, 0, r.2.2, 0⟩)
  | _, _ => (none, ⟨0, 0, 0, 0⟩)

/-- `flowmeter_process`: the caller-visible result, forgetting the heap
bookkeeping. -/
noncomputable def flowmeter_process
    (config : Option FlowMeterConfig) (measurements : Option (ℕ → PathMeasurement)) :
    Option FlowResult :=
  (flowmeter_process_traced config measurements).1

/-- A free event performed by `flowmeter_result_free`. -/
inductive FreeOp where
  | freeVelocityArray
  | freeAggregate
deriving DecidableEq

/-- `flowmeter_result_free` from `flowmeter.c`, as the list of `free` calls
it performs: nothing for a NULL argument, the velocity array (when its
pointer is non-NULL) and then the aggregate otherwise. -/
def flowmeter_result_free (result : Option FlowResult) : List FreeOp :=
  match result with
  | none => []
  | some r =>
    (if r.path_velocities.isSome then [FreeOp.freeVelocityArray] else []) ++
      [FreeOp.freeAggregate]

/-! ### Helper lemmas -/

/-- Unfolding lemma: on present references with positive transit times and a
non-zero sine, `calculate_path_velocity` computes the transit-time
differential formula. -/
theorem cpv_eq_formula (p : AcousticPath) (m : PathMeasurement)
    (hup : 0 < m.t_upstream) (hdown : 0 < m.t_downstream)
    (hsin : Real.sin p.angle ≠ 0) :
    calculate_path_velocity (some p) (some m) =
      (p.length / (2 * Real.sin p.angle)) *
        ((m.t_upstream - m.t_downstream) / (m.t_upstream * m.t_downstream)) := by
  have hguard : ¬(m.t_upstream ≤ 0 ∨ m.t_downstream ≤ 0) := by
    rw [not_or]
    exact ⟨not_le.mpr hup, not_le.mpr hdown⟩
  simp only [calculate_path_velocity]
  rw [if_neg hguard, if_neg hsin]

/-- The accumulation loop equals the corresponding `Finset` sum. -/
theorem weighted_velocity_sum_eq_sum (w v : ℕ → ℝ) (n : ℕ) :
    weighted_velocity_sum w v n = ∑ i ∈ Finset.range n, w i * v i := by
  induction n with
  | zero => simp [weighted_velocity_sum]
  | succ n ih =>
    rw [weighted_velocity_sum, List.range_succ, List.foldl_append, List.foldl_cons,
      List.foldl_nil, Finset.sum_range_succ, ← ih, weighted_velocity_sum]

/-- If `calculate_flow_rate` reports failure it has allocated nothing. -/
theorem calculate_flow_rate_fail_no_alloc (config : Option FlowMeterConfig)
    (measurements : Option (ℕ → PathMeasurement)) (rp : Bool)
    (hfail : (calculate_flow_rate config measurements rp).1 ≠ 0) :
    (calculate_flow_rate config measurements rp).2.2 = 0 := by
  match config, measurements, rp with
  | some c, some m, true =>
    by_cases hn : c.num_paths = 0
    · simp [calculate_flow_rate, hn]
    · match hp : c.paths with
      | none => simp [calculate_flow_rate, hn, hp]
      | some paths =>
        exfalso
        apply hfail
        simp [calculate_flow_rate, hn, hp]
  | some c, some m, false => rfl
  | some c, none, rp => rfl
  | none, m, rp => rfl

/-! ### Sample inputs shared by the witness theorems -/

/-- A benign path: right angle to the axis (`sin = 1`), length 2, weight 1. -/
noncomputable def sample_path : AcousticPath := ⟨0, Real.pi / 2, 2, 1⟩

/-- A benign measurement: transit times 2 s and 1 s. -/
noncomputable def sample_measurement : PathMeasurement := ⟨2, 1⟩

/-- A benign single-path configuration with pipe diameter 1 m. -/
noncomputable def sample_config : FlowMeterConfig := ⟨1, 1, some fun _ => sample_path⟩

/-! ### Claim theorems -/

/-- C1: with both references present, positive transit times and non-zero
sine, `calculate_path_velocity` returns
`(length / (2 sin angle)) * ((t_up - t_down) / (t_up * t_down))`; and each
degenerate guard of the source — an absent reference, a non-positive transit
time, a zero sine — independently forces the result `0.0`. -/
theorem calculate_path_velocity_spec :
    (∀ (p : AcousticPath) (m : PathMeasurement),
      0 < m.t_upstream → 0 < m.t_downstream → Real.sin p.angle ≠ 0 →
      calculate_path_velocity (some p) (some m) =
        (p.length / (2 * Real.sin p.angle)) *
          ((m.t_upstream - m.t_downstream) / (m.t_upstream * m.t_downstream))) ∧
    (∀ m, calculate_path_velocity none m = 0) ∧
    (∀ p, calculate_path_velocity p none = 0) ∧
    (∀ (p : AcousticPath) (m : PathMeasurement),
      m.t_upstream ≤ 0 ∨ m.t_downstream ≤ 0 →
      calculate_path_velocity (some p) (some m) = 0) ∧
    (∀ (p : AcousticPath) (m : PathMeasurement),
      Real.sin p.angle = 0 → calculate_path_velocity (some p) (some m) = 0) := by
  refine ⟨cpv_eq_formula, ?_, ?_, ?_, ?_⟩
  · intro m
    cases m <;> rfl
  · intro p
    cases p <;> rfl
  · intro p m h
    simp only [calculate_path_velocity]
    rw [if_pos h]
  · intro p m hsin
    simp only [calculate_path_velocity]
    by_cases h : m.t_upstream ≤ 0 ∨ m.t_downstream ≤ 0
    · rw [if_pos h]
    · rw [if_neg h, if_pos hsin]

/-- Witness for C1 at `sample_path` (angle π/2, length 2) and
`sample_measurement` (transit times 2 and 1): the formula value is returned. -/
theorem calculate_path_velocity_spec_witness :
    calculate_path_velocity (some sample_path) (some sample_measurement) =
      (sample_path.length / (2 * Real.sin sample_path.angle)) *
        ((sample_measurement.t_upstream - sample_measurement.t_downstream) /
          (sample_measurement.t_upstream * sample_measurement.t_downstream)) :=
  calculate_path_velocity_spec.1 sample_path sample_measurement
    (by norm_num [sample_measurement]) (by norm_num [sample_measurement])
    (by norm_num [sample_path, Real.sin_pi_div_two])

/-- C2: under the preconditions (references present, `num_paths ≠ 0`, paths
present), `calculate_flow_rate` succeeds, fills in exactly `num_paths` path
velocities `calculate_path_velocity(paths[i], measurements[i])` in input
order, and sets `volumetric_flow = π (d/2)² · Σ_i weight_i · v_i`. -/
theorem calculate_flow_rate_spec (config : FlowMeterConfig)
    (measurements : ℕ → PathMeasurement) (paths : ℕ → AcousticPath)
    (hpaths : config.paths = some paths) (hn : config.num_paths ≠ 0) :
    ∃ vlist : List ℝ,
      calculate_flow_rate (some config) (some measurements) true =
        (0, some ⟨some vlist,
          (Real.pi * (config.pipe_diameter / 2) * (config.pipe_diameter / 2)) *
            ∑ i ∈ Finset.range config.num_paths,
              (paths i).weight *
                calculate_path_velocity (some (paths i)) (some (measurements i))⟩, 1) ∧
      vlist.length = config.num_paths ∧
      ∀ i, i < config.num_paths →
        vlist[i]? =
          some (calculate_path_velocity (some (paths i)) (some (measurements i))) := by
  refine ⟨(List.range config.num_paths).map
    (fun i => calculate_path_velocity (some (paths i)) (some (measurements i))),
    ?_, ?_, ?_⟩
  · simp only [calculate_flow_rate, hpaths, if_neg hn]
    rw [flow_from_velocities, weighted_velocity_sum_eq_sum]
  · simp
  · intro i hi
    rw [List.getElem?_map, List.getElem?_range hi]
    rfl

/-- Witness for C2 at the one-path `sample_config` and the constant
`sample_measurement` stream. -/
theorem calculate_flow_rate_spec_witness :
    ∃ vlist : List ℝ,
      calculate_flow_rate (some sample_config) (some fun _ => sample_measurement) true =
        (0, some ⟨some vlist,
          (Real.pi * (sample_config.pipe_diameter / 2) * (sample_config.pipe_diameter / 2)) *
            ∑ _i ∈ Finset.range sample_config.num_paths,
              sample_path.weight *
                calculate_path_velocity (some sample_path) (some sample_measurement)⟩, 1) ∧
      vlist.length = sample_config.num_paths ∧
      ∀ i, i < sample_config.num_paths →
        vlist[i]? =
          some (calculate_path_velocity (some sample_path) (some sample_measurement)) :=
  calculate_flow_rate_spec sample_config (fun _ => sample_measurement)
    (fun _ => sample_path) rfl (by norm_num [sample_config])

/-- C3 counterexample: `calculate_flow_rate` fails (returns `-1`) on an input
where no ConfigurationError condition of the claim holds — configuration and
measurements present, `num_paths ≠ 0`, paths present — because the output
result reference is absent.  So failure does not happen *exactly* on the
claim's ConfigurationError conditions. -/
theorem flow_rate_failure_counterexample :
    (calculate_flow_rate (some sample_config) (some fun _ => sample_measurement) false).1 = -1 ∧
      sample_config.num_paths ≠ 0 ∧ sample_config.paths ≠ none :=
  ⟨rfl, by norm_num [sample_config], by simp [sample_config]⟩

/-- C3 (amended): `calculate_flow_rate` fails exactly when a
ConfigurationError condition holds — absent configuration, absent
measurements, `num_paths = 0`, absent paths — or the output result reference
is absent; on failure nothing usable is written to the result, and
`flowmeter_process` returns an absent result exactly on the
ConfigurationError conditions.  All other inputs succeed. -/
theorem flow_rate_failure_characterization :
    (∀ (c : Option FlowMeterConfig) (m : Option (ℕ → PathMeasurement)) (rp : Bool),
      ((calculate_flow_rate c m rp).1 = -1 ↔
        c = none ∨ m = none ∨ rp = false ∨
          ∃ cfg, c = some cfg ∧ (cfg.num_paths = 0 ∨ cfg.paths = none)) ∧
      ((calculate_flow_rate c m rp).1 = -1 ↔ (calculate_flow_rate c m rp).2.1 = none)) ∧
    (∀ (c : Option FlowMeterConfig) (m : Option (ℕ → PathMeasurement)),
      flowmeter_process c m = none ↔
        c = none ∨ m = none ∨
          ∃ cfg, c = some cfg ∧ (cfg.num_paths = 0 ∨ cfg.paths = none)) := by
  constructor
  · intro c m rp
    match c, m, rp with
    | none, m, rp => simp [calculate_flow_rate]
    | some cfg, none, rp => simp [calculate_flow_rate]
    | some cfg, some mm, false => simp [calculate_flow_rate]
    | some cfg, some mm, true =>
      by_cases hn : cfg.num_paths = 0
      · simp [calculate_flow_rate, hn]
      · match hp : cfg.paths with
        | none => simp [calculate_flow_rate, hn, hp]
        | some paths => simp [calculate_flow_rate, hn, hp]
  · intro c m
    match c, m with
    | none, m => simp [flowmeter_process, flowmeter_process_traced]
    | some cfg, none => simp [flowmeter_process, flowmeter_process_traced]
    | some cfg, some mm =>
      by_cases hn : cfg.num_paths = 0
      · simp [flowmeter_process, flowmeter_process_traced, calculate_flow_rate, hn]
      · match hp : cfg.paths with
        | none =>
          simp [flowmeter_process, flowmeter_process_traced, calculate_flow_rate, hn, hp]
        | some paths =>
          simp [flowmeter_process, flowmeter_process_traced, calculate_flow_rate, hn, hp]

/-- Witness for the amended C3: an absent configuration makes
`flowmeter_process` return an absent result. -/
theorem flow_rate_failure_characterization_witness :
    flowmeter_process none (some fun _ => sample_measurement) = none :=
  (flow_rate_failure_characterization.2 none (some fun _ => sample_measurement)).mpr
    (Or.inl rfl)

/-- C4: for positive transit times and non-zero sine, swapping `t_upstream`
and `t_downstream` negates `calculate_path_velocity`. -/
theorem calculate_path_velocity_antisymm (p : AcousticPath) (m : PathMeasurement)
    (hup : 0 < m.t_upstream) (hdown : 0 < m.t_downstream)
    (hsin : Real.sin p.angle ≠ 0) :
    calculate_path_velocity (some p) (some ⟨m.t_downstream, m.t_upstream⟩) =
      - calculate_path_velocity (some p) (some m) := by
  rw [cpv_eq_formula p ⟨m.t_downstream, m.t_upstream⟩ hdown hup hsin,
    cpv_eq_formula p m hup hdown hsin]
  ring

/-- Witness for C4 at `sample_path` and `sample_measurement`. -/
theorem calculate_path_velocity_antisymm_witness :
    calculate_path_velocity (some sample_path)
        (some ⟨sample_measurement.t_downstream, sample_measurement.t_upstream⟩) =
      - calculate_path_velocity (some sample_path) (some sample_measurement) :=
  calculate_path_velocity_antisymm sample_path sample_measurement
    (by norm_num [sample_measurement]) (by norm_num [sample_measurement])
    (by norm_num [sample_path, Real.sin_pi_div_two])

/-- C6: scaling every path velocity by `k`, with the weights and the pipe
diameter fixed, scales the integrated volumetric flow by exactly `k`. -/
theorem flow_from_velocities_scaling (d : ℝ) (w v : ℕ → ℝ) (n : ℕ) (k : ℝ) :
    flow_from_velocities d w (fun i => k * v i) n =
      k * flow_from_velocities d w v n := by
  simp only [flow_from_velocities, weighted_velocity_sum_eq_sum, Finset.mul_sum]
  exact Finset.sum_congr rfl fun i _ => by ring

/-- C7: `flowmeter_result_free` performs no free on an absent reference, and
on a present result frees the velocity array (when present) and then the
aggregate. -/
theorem flowmeter_result_free_spec :
    flowmeter_result_free none = [] ∧
    ∀ r : FlowResult, r.path_velocities.isSome →
      flowmeter_result_free (some r) =
        [FreeOp.freeVelocityArray, FreeOp.freeAggregate] := by
  refine ⟨rfl, ?_⟩
  intro r hr
  simp [flowmeter_result_free, hr]

/-- Witness for C7 at a result with a present velocity array. -/
theorem flowmeter_result_free_spec_witness :
    flowmeter_result_free (some ⟨some [], 0⟩) =
      [FreeOp.freeVelocityArray, FreeOp.freeAggregate] :=
  flowmeter_result_free_spec.2 ⟨some [], 0⟩ rfl

/-- C8: when the integration step fails after `flowmeter_process` has
allocated the result aggregate, the process frees every block it or the
integrator allocated before signalling failure: the returned result is
absent and the allocation trace is balanced. -/
theorem flowmeter_process_no_leak (c : FlowMeterConfig) (m : ℕ → PathMeasurement)
    (hfail : (calculate_flow_rate (some c) (some m) true).1 ≠ 0) :
    (flowmeter_process_traced (some c) (some m)).1 = none ∧
    (flowmeter_process_traced (some c) (some m)).2.aggregates_allocated =
      (flowmeter_process_traced (some c) (some m)).2.aggregates_freed ∧
    (flowmeter_process_traced (some c) (some m)).2.arrays_allocated =
      (flowmeter_process_traced (some c) (some m)).2.arrays_freed := by
  have harr := calculate_flow_rate_fail_no_alloc (some c) (some m) true hfail
  simp only [flowmeter_process_traced, if_pos hfail]
  exact ⟨trivial, trivial, harr⟩

/-- Witness for C8: a present configuration with `num_paths = 0` makes the
integrator fail after the aggregate was allocated, and nothing leaks. -/
theorem flowmeter_process_no_leak_witness :
    (flowmeter_process_traced (some ⟨1, 0, some fun _ => sample_path⟩)
        (some fun _ => sample_measurement)).1 = none ∧
    (flowmeter_process_traced (some ⟨1, 0, some fun _ => sample_path⟩)
        (some fun _ => sample_measurement)).2.aggregates_allocated =
      (flowmeter_process_traced (some ⟨1, 0, some fun _ => sample_path⟩)
        (some fun _ => sample_measurement)).2.aggregates_freed ∧
    (flowmeter_process_traced (some ⟨1, 0, some fun _ => sample_path⟩)
        (some fun _ => sample_measurement)).2.arrays_allocated =
      (flowmeter_process_traced (some ⟨1, 0, some fun _ => sample_path⟩)
        (some fun _ => sample_measurement)).2.arrays_freed :=
  flowmeter_process_no_leak ⟨1, 0, some fun _ => sample_path⟩
    (fun _ => sample_measurement) (by simp [calculate_flow_rate])

/-- C9: an absent output result reference makes `calculate_flow_rate` return
`-1` immediately: nothing is computed, written, or allocated. -/
theorem calculate_flow_rate_result_absent (c : Option FlowMeterConfig)
    (m : Option (ℕ → PathMeasurement)) :
    calculate_flow_rate c m false = (-1, none, 0) := by
  match c, m with
  | none, m => rfl
  | some cfg, none => rfl
  | some cfg, some mm => rfl

/-- C10: `calculate_flow_rate` is a function of `pipe_diameter`, `num_paths`,
and the first `num_paths` entries of the paths and measurements sequences
only: two runs agreeing there produce identical outputs (status, velocities
and volumetric flow). -/
theorem calculate_flow_rate_depends_only (c₁ c₂ : FlowMeterConfig)
    (m₁ m₂ : ℕ → PathMeasurement) (p₁ p₂ : ℕ → AcousticPath) (rp : Bool)
    (hd : c₁.pipe_diameter = c₂.pipe_diameter) (hn : c₁.num_paths = c₂.num_paths)
    (hp₁ : c₁.paths = some p₁) (hp₂ : c₂.paths = some p₂)
    (hpe : ∀ i, i < c₁.num_paths → p₁ i = p₂ i)
    (hme : ∀ i, i < c₁.num_paths → m₁ i = m₂ i) :
    calculate_flow_rate (some c₁) (some m₁) rp =
      calculate_flow_rate (some c₂) (some m₂) rp := by
  rw [hn] at hpe hme
  match rp with
  | false => rfl
  | true =>
    simp only [calculate_flow_rate, hp₁, hp₂, hd, hn]
    by_cases h0 : c₂.num_paths = 0
    · rw [if_pos h0, if_pos h0]
    · rw [if_neg h0, if_neg h0]
      have hlist : (List.range c₂.num_paths).map
            (fun i => calculate_path_velocity (some (p₁ i)) (some (m₁ i))) =
          (List.range c₂.num_paths).map
            (fun i => calculate_path_velocity (some (p₂ i)) (some (m₂ i))) := by
        apply List.map_congr_left
        intro i hi
        rw [hpe i (List.mem_range.mp hi), hme i (List.mem_range.mp hi)]
      have hflow : flow_from_velocities c₂.pipe_diameter (fun i => (p₁ i).weight)
            (fun i => calculate_path_velocity (some (p₁ i)) (some (m₁ i)))
            c₂.num_paths =
          flow_from_velocities c₂.pipe_diameter (fun i => (p₂ i).weight)
            (fun i => calculate_path_velocity (some (p₂ i)) (some (m₂ i)))
            c₂.num_paths := by
        simp only [flow_from_velocities, weighted_velocity_sum_eq_sum]
        congr 1
        apply Finset.sum_congr rfl
        intro i hi
        rw [hpe i (Finset.mem_range.mp hi), hme i (Finset.mem_range.mp hi)]
      rw [hlist, hflow]

/-- Witness for C10: two runs whose paths and measurements differ only at
index 1 (outside a one-path window) produce identical outputs. -/
theorem calculate_flow_rate_depends_only_witness :
    calculate_flow_rate (some sample_config) (some fun _ => sample_measurement) true =
      calculate_flow_rate
        (some ⟨1, 1, some fun i => if i = 0 then sample_path else ⟨0, 0, 0, 0⟩⟩)
        (some fun i => if i = 0 then sample_measurement else ⟨0, 0⟩) true :=
  calculate_flow_rate_depends_only sample_config
    ⟨1, 1, some fun i => if i = 0 then sample_path else ⟨0, 0, 0, 0⟩⟩
    (fun _ => sample_measurement) (fun i => if i = 0 then sample_measurement else ⟨0, 0⟩)
    (fun _ => sample_path) (fun i => if i = 0 then sample_path else ⟨0, 0, 0, 0⟩)
    true rfl rfl rfl rfl
    (by
      intro i hi
      have h0 : i = 0 := Nat.lt_one_iff.mp hi
      simp [h0])
    (by
      intro i hi
      have h0 : i = 0 := Nat.lt_one_iff.mp hi
      simp [h0])

/-! ### The end-to-end scenario of the spec (claim C5) -/

/-- The spec's single acoustic path: angle `π/4`, length `0.1 / sin(π/4)`,
weight `1`. -/
noncomputable def scenario_path : AcousticPath :=
  ⟨0, Real.pi / 4, (1 / 10) / Real.sin (Real.pi / 4), 1⟩

/-- The spec's transit times: `t_upstream = 9.4925e-5 s`,
`t_downstream = 9.5948e-5 s`. -/
noncomputable def scenario_measurement : PathMeasurement :=
  ⟨94925 / 10 ^ 9, 95948 / 10 ^ 9⟩

/-- The spec's configuration: pipe diameter `0.1 m`, one path. -/
noncomputable def scenario_config : FlowMeterConfig :=
  ⟨1 / 10, 1, some fun _ => scenario_path⟩

/-- The exact path velocity the code computes on the scenario input:
`0.1 · Δt / (t_up · t_down) = -1023000000 / 91078639 ≈ -11.232 m/s`. -/
theorem scenario_velocity_eq :
    calculate_path_velocity (some scenario_path) (some scenario_measurement) =
      -1023000000 / 91078639 := by
  have h2 : (0 : ℝ) < Real.sqrt 2 := Real.sqrt_pos.mpr (by norm_num)
  have hs2 : Real.sqrt 2 * Real.sqrt 2 = 2 := Real.mul_self_sqrt (by norm_num)
  have hsin : Real.sin scenario_path.angle ≠ 0 := by
    show Real.sin (Real.pi / 4) ≠ 0
    rw [Real.sin_pi_div_four]
    exact ne_of_gt (div_pos h2 (by norm_num))
  rw [cpv_eq_formula scenario_path scenario_measurement
    (by norm_num [scenario_measurement]) (by norm_num [scenario_measurement]) hsin]
  simp only [scenario_path, scenario_measurement, Real.sin_pi_div_four]
  have hpre : ((1 : ℝ) / 10) / (Real.sqrt 2 / 2) / (2 * (Real.sqrt 2 / 2)) = 1 / 10 := by
    rw [div_div]
    have hden : (Real.sqrt 2 / 2) * (2 * (Real.sqrt 2 / 2)) = 1 :=
      calc (Real.sqrt 2 / 2) * (2 * (Real.sqrt 2 / 2)) = Real.sqrt 2 * Real.sqrt 2 / 2 := by
            ring
        _ = 1 := by rw [hs2]; norm_num
    rw [hden, div_one]
  rw [hpre]
  norm_num

/-- C5 counterexample: on the spec's scenario input the computed path
velocity is not within ±1% of 2.0 m/s (it is ≈ -11.232 m/s). -/
theorem scenario_velocity_not_two :
    ¬ |calculate_path_velocity (some scenario_path) (some scenario_measurement) - 2| ≤
      2 / 100 := by
  rw [scenario_velocity_eq, abs_le]
  norm_num

/-- C5 (amended): on the spec's scenario input the code returns the path
velocity `-1023000000 / 91078639 ≈ -11.232 m/s` (not ≈ 2.0 m/s) and the
volumetric flow `π · (0.05)² · (-1023000000 / 91078639) ≈ -0.0882 m³/s`
(not ≈ 0.015708 m³/s). -/
theorem scenario_exact_values :
    calculate_path_velocity (some scenario_path) (some scenario_measurement) =
      -1023000000 / 91078639 ∧
    ∃ r : FlowResult,
      (calculate_flow_rate (some scenario_config)
          (some fun _ => scenario_measurement) true).2.1 = some r ∧
      r.volumetric_flow =
        Real.pi * (1 / 20) * (1 / 20) * (-1023000000 / 91078639) := by
  refine ⟨scenario_velocity_eq,
    ⟨some [calculate_path_velocity (some scenario_path) (some scenario_measurement)],
      flow_from_velocities (1 / 10) (fun _ => scenario_path.weight)
        (fun _ => calculate_path_velocity (some scenario_path) (some scenario_measurement))
        1⟩, ?_, ?_⟩
  · simp [calculate_flow_rate, scenario_config]
  · show flow_from_velocities (1 / 10) _ _ 1 = _
    rw [flow_from_velocities, weighted_velocity_sum]
    simp only [List.range_succ, List.range_zero, List.nil_append, List.foldl_cons,
      List.foldl_nil]
    rw [scenario_velocity_eq]
    simp only [scenario_path]
    ring

end Flowmeter
